import Mathlib

/-!
Verification of the Observable/Subscription engine in
`src/src/util/src/observable/mod.rs` (the module designated by the claims).

The Rust module is sequential call-forwarding code; its two mutable slots
(`observer`, `cleanup`) live behind `std::sync::RwLock`. We embed each
function as an explicit state-passing Lean function over the slot contents.

Lock modelling. Every lock acquisition in the module is a within-statement
temporary (acquired and released inside one statement) EXCEPT two places
where a read guard on the `observer` slot lock stays live across nested
code:

* `Subscription::new` (line 167): the guard chain
  `this.observer.read().unwrap().as_ref().unwrap().read().unwrap().start(..)`
  keeps a read guard on the `observer` slot for the whole duration of the
  `start` callback (temporaries of a statement drop at the end of the
  statement, after `start` returns);
* `SubscriptionObserver::error` / `::complete` (lines 246 and 267): the
  binding `let observer = subscription.observer.read().unwrap();` is a
  named guard that lives to the end of the function body.

`std::sync::RwLock::write` blocks until no read guard is outstanding,
including read guards held by the calling thread itself, so a write
acquisition made while the same thread holds a read guard on the same lock
blocks forever. Accordingly the model threads, into every function that
performs `*observer.write().unwrap() = None`, the number of read guards the
current thread holds on the `observer` slot lock at that point, and yields
the outcome `Halt.deadlocked` when that number is positive. Read
acquisitions never block in a sequential run (no write guard is ever held
across a nested call anywhere in the module), so they are not tracked.
The inner `RwLock<BoxedObserver>` is only ever read-locked, never
write-locked, so it cannot block a sequential run and is not modelled.

Panics (`assert!` in `cleanup_subscription`, `todo!()` in
`Observable::filter`) are modelled by the outcome `Halt.panicked`.
-/

namespace Observables

/-- Abnormal terminations of a call into the module: `panicked` models a
Rust panic (from `assert!` or `todo!()`), `deadlocked` models blocking
forever on a lock acquisition that can never succeed. -/
inductive Halt where
  | panicked
  | deadlocked
deriving DecidableEq

/-- Calls delivered to the consumer-supplied `Observer` (the downstream
callbacks), plus `cleanupRun` marking one execution of the registered
cleanup action. `error`/`complete` would be emitted by the observer-side
terminal deliveries `o.error(error)` / `o.complete()` at lines 250/271 of
the source; the theorems below show those lines are never reached. -/
inductive Event (α ε : Type) where
  | start
  | next (v : α)
  | error (e : ε)
  | complete
  | cleanupRun
deriving DecidableEq

/-- Defunctionalised behaviour of the consumer-supplied boxed observer
sitting in the `observer` slot. `passive` is an observer whose callbacks
only record their invocation; `startUnsub` additionally calls
`subscription.unsubscribe()` from inside its `start` callback (the
"start-time rejection" scenario); `derived` is the observer built by
`Observable::map` with the `observer!` macro (its `start` field is `None`,
so invoking `start` on it does nothing) — its `next`/`error`/`complete`
forwarding is interpreted by the pipeline functions further below. -/
inductive ObsB where
  | passive
  | startUnsub
  | derived
deriving DecidableEq

/-- The two slots of `Subscription` (source lines 148-155): `observer` is
`some _` while open and `none` once closed; `cleanup` holds the producer's
registered cleanup action once the subscriber function has returned, and is
cleared when the action is consumed. -/
structure Subscription where
  observer : Option ObsB
  cleanup : Option Unit
deriving DecidableEq

/-- Result of running one call into the module: the subscription state when
the call returned (or, for a halt, the state at the moment of the panic or
of the blocking lock acquisition), the events delivered during the call, in
order, and the abnormal outcome if any. -/
structure Res (α ε : Type) where
  sub : Subscription
  evs : List (Event α ε)
  halt : Option Halt
deriving DecidableEq

/-- `subscription_closed` (lines 474-481): reads the `observer` slot
through a within-statement read guard and tests for `None`. -/
def subscription_closed (s : Subscription) : Bool :=
  s.observer.isNone

/-- `cleanup_subscription` (lines 454-472): asserts the `observer` slot is
already empty (a violated `assert!` is a panic), then reads the `cleanup`
slot, returns if it is empty, otherwise clears it and runs the taken
action. All guards here are within-statement temporaries. -/
def cleanup_subscription (s : Subscription) : Res α ε :=
  if s.observer.isSome then
    ⟨s, [], some Halt.panicked⟩
  else
    match s.cleanup with
    | none => ⟨s, [], none⟩
    | some _ => ⟨{ s with cleanup := none }, [Event.cleanupRun], none⟩

/-- `close_subscription` (lines 483-493): no-op when already closed;
otherwise `*subscription.observer.write().unwrap() = None` followed by
`cleanup_subscription`. `r` is the number of read guards the calling thread
holds on the `observer` slot lock at entry: the write acquisition blocks
forever when `r > 0` (this is the case when called from inside a `start`
callback, see `Subscription.new`). -/
def close_subscription (r : Nat) (s : Subscription) : Res α ε :=
  if subscription_closed s then ⟨s, [], none⟩
  else if r > 0 then ⟨s, [], some Halt.deadlocked⟩
  else cleanup_subscription { s with observer := none }

/-- `Subscription::closed` (lines 190-192). -/
def Subscription.closed (s : Subscription) : Bool :=
  subscription_closed s

/-- `Subscription::unsubscribe` (lines 195-197): delegates to
`close_subscription`; an external caller holds no guard on the observer
slot lock, hence `r = 0`. -/
def Subscription.unsubscribe (s : Subscription) : Res α ε :=
  close_subscription 0 s

/-- `SubscriptionObserver::next` (lines 220-235): returns at once when the
subscription is closed; otherwise re-reads the `observer` slot (all guards
are within-statement temporaries here, so no deadlock) and forwards the
value to the observer. The observers modelled by `ObsB` do not re-enter
the subscription from their `next` callback, so delivery only records the
event. -/
def SubscriptionObserver.next (v : α) (s : Subscription) : Res α ε :=
  if subscription_closed s then ⟨s, [], none⟩
  else
    match s.observer with
    | none => ⟨s, [], none⟩
    | some _ => ⟨s, [Event.next v], none⟩

/-- `SubscriptionObserver::error` (lines 238-256): returns at once when
closed. Otherwise line 246 takes a read guard on the `observer` slot that
is a named binding living to the end of the function, and line 249 then
acquires a write lock on the same `RwLock`: with the thread holding its own
read guard the write blocks forever, so the open branch deadlocks before
detaching the observer, before `o.error(error)` and before
`cleanup_subscription`. The `None` sub-branch (unreachable after the
closed-guard) falls through to `cleanup_subscription`. -/
def SubscriptionObserver.error (_e : ε) (s : Subscription) : Res α ε :=
  if subscription_closed s then ⟨s, [], none⟩
  else
    match s.observer with
    | some _ => ⟨s, [], some Halt.deadlocked⟩
    | none => cleanup_subscription s

/-- `SubscriptionObserver::complete` (lines 259-274): identical control
flow to `error` — the open branch blocks forever at the line-270 write
acquisition while the line-267 read guard is still held. -/
def SubscriptionObserver.complete (s : Subscription) : Res α ε :=
  if subscription_closed s then ⟨s, [], none⟩
  else
    match s.observer with
    | some _ => ⟨s, [], some Halt.deadlocked⟩
    | none => cleanup_subscription s

/-- Helper: sequence a second call after a first, propagating a halt and
concatenating delivered events. -/
def Res.andThen (r : Res α ε) (f : Subscription → Res α ε) : Res α ε :=
  match r.halt with
  | some _ => r
  | none =>
    let r2 := f r.sub
    ⟨r2.sub, r.evs ++ r2.evs, r2.halt⟩

/-- `Subscription::new` (lines 162-187), with the subscriber function
abstracted as `producer`. Steps, in source order: install the observer;
invoke `observer.start(subscription)` while the line-167 statement holds a
read guard on the `observer` slot (so an `unsubscribe` performed inside
`start` runs `close_subscription` with one outstanding read guard); return
early if the subscription is now closed; run the subscriber function;
store the returned cleanup action; if the subscription is closed by now,
run `cleanup_subscription`. -/
def Subscription.new (obs : ObsB) (producer : Subscription → Res α ε) :
    Res α ε :=
  let s0 : Subscription := { observer := some obs, cleanup := none }
  let rStart : Res α ε :=
    match obs with
    | ObsB.passive => ⟨s0, [Event.start], none⟩
    | ObsB.derived => ⟨s0, [], none⟩
    | ObsB.startUnsub =>
      let r : Res α ε := close_subscription 1 s0
      ⟨r.sub, Event.start :: r.evs, r.halt⟩
  match rStart.halt with
  | some h => ⟨rStart.sub, rStart.evs, some h⟩
  | none =>
    if subscription_closed rStart.sub then
      ⟨rStart.sub, rStart.evs, none⟩
    else
      let rP := producer rStart.sub
      match rP.halt with
      | some h => ⟨rP.sub, rStart.evs ++ rP.evs, some h⟩
      | none =>
        let s2 : Subscription := { rP.sub with cleanup := some () }
        if subscription_closed s2 then
          let rC : Res α ε := cleanup_subscription s2
          ⟨rC.sub, rStart.evs ++ rP.evs ++ rC.evs, rC.halt⟩
        else
          ⟨s2, rStart.evs ++ rP.evs, none⟩

/-- The atomic calls a subscriber function can make on its
`SubscriptionObserver` (its full capability surface beyond the pure query
`closed()`). Straight-line producer programs are lists of these. -/
inductive PAct (α ε : Type) where
  | next (v : α)
  | error (e : ε)
  | complete
deriving DecidableEq

/-- Run a straight-line producer program through the
`SubscriptionObserver` calls, stopping at the first abnormal outcome. -/
def runProducer (acts : List (PAct α ε)) (s : Subscription) : Res α ε :=
  match acts with
  | [] => ⟨s, [], none⟩
  | a :: rest =>
    let r : Res α ε :=
      match a with
      | PAct.next v => SubscriptionObserver.next v s
      | PAct.error e => SubscriptionObserver.error e s
      | PAct.complete => SubscriptionObserver.complete s
    match r.halt with
    | some h => ⟨r.sub, r.evs, some h⟩
    | none =>
      let r2 := runProducer rest r.sub
      ⟨r2.sub, r.evs ++ r2.evs, r2.halt⟩

/-- The subscriber function generated by `impl From<Iterable> for
Observable` (lines 124-143): iterate the collected values in order, calling
`observer.next(item)` for each, returning early (with a no-op cleanup) if
`observer.closed()` turns true after an emission; after a full pass call
`observer.complete()`. -/
def fromProducer (values : List α) (s : Subscription) : Res α ε :=
  match values with
  | [] => SubscriptionObserver.complete s
  | v :: rest =>
    let r : Res α ε := SubscriptionObserver.next v s
    match r.halt with
    | some h => ⟨r.sub, r.evs, some h⟩
    | none =>
      if subscription_closed r.sub then ⟨r.sub, r.evs, none⟩
      else
        let r2 := fromProducer rest r.sub
        ⟨r2.sub, r.evs ++ r2.evs, r2.halt⟩

/-- `Observable` (lines 64-70): an immutable wrapper around a subscriber
function. -/
structure Observable (α ε : Type) where
  subscriber : Subscription → Res α ε

/-- `Observable::new` (lines 78-80). -/
def Observable.new (f : Subscription → Res α ε) : Observable α ε :=
  ⟨f⟩

/-- `Observable::subscribe` (lines 83-85): builds a `Subscription` running
the full start/produce protocol. -/
def Observable.subscribe (o : Observable α ε) (obs : ObsB) : Res α ε :=
  Subscription.new obs o.subscriber

/-- `impl From<Iterable> for Observable` (lines 124-143) as an
`Observable` value: the iterable is collected once, and every `subscribe`
runs `fromProducer` over that same list from the start. -/
def Observable.fromList (values : List α) : Observable α ε :=
  Observable.new (fromProducer values)

/-- `Observable::filter` (lines 117-121): the body is `todo!()`, which
panics unconditionally, so no `Observable` is ever constructed. The
predicate argument is part of the source signature. -/
def Observable.filter (_o : Observable α ε) (_p : α → Bool) :
    Except Halt (Observable α ε) :=
  Except.error Halt.panicked

/-! ### The `map` pipeline

`Observable::map` (lines 88-114) builds a new `Observable` whose subscriber
function subscribes to the source with a derived observer
(`observer!` with `next`/`error`/`complete` fields and no `start`): its
`next` forwards `map_fn(value)` to the downstream `SubscriptionObserver`,
its `error`/`complete` forward unchanged, and the new subscriber returns a
cleanup action that unsubscribes from the source subscription.

A `subscribe` on the mapped observable therefore involves two
`Subscription` values — the downstream one handed to the consumer and the
upstream one on the source — whose locks are distinct. The functions below
re-trace the source line by line for this two-subscription configuration:
`pipeUpNext`/`pipeUpError`/`pipeUpComplete` are
`SubscriptionObserver::next`/`error`/`complete` (lines 220-274) acting on
the upstream subscription, whose installed observer is the derived
observer, so a `next` delivery runs the closure at lines 99-101 (a
downstream `SubscriptionObserver::next` of the mapped value). As in the
single-subscription model, the upstream `error`/`complete` block forever at
the write acquisition of line 249/270 while their own line-246/267 read
guard is held, before the forwarding closures at lines 102-107 could run. -/

/-- Downstream plus upstream subscription state of a subscription to a
mapped observable. -/
structure Pipe where
  down : Subscription
  up : Subscription
deriving DecidableEq

/-- Result of a call into the map pipeline; events are the deliveries to
the downstream consumer observer. -/
structure PRes (β ε : Type) where
  pipe : Pipe
  evs : List (Event β ε)
  halt : Option Halt
deriving DecidableEq

/-- Upstream `SubscriptionObserver::next` (lines 220-235) when the
installed upstream observer is the derived observer of `map`: delivery runs
`observer_1.next(map_fn(value.clone()))` (lines 99-101), a downstream
`SubscriptionObserver::next`. -/
def pipeUpNext (f : α → β) (v : α) (p : Pipe) : PRes β ε :=
  if subscription_closed p.up then ⟨p, [], none⟩
  else
    match p.up.observer with
    | none => ⟨p, [], none⟩
    | some _ =>
      let r : Res β ε := SubscriptionObserver.next (f v) p.down
      ⟨{ p with down := r.sub }, r.evs, r.halt⟩

/-- Upstream `SubscriptionObserver::error` (lines 238-256): in the open
branch the line-249 write acquisition blocks forever against the line-246
read guard, before the derived observer's forwarding closure (lines
102-104) could run. -/
def pipeUpError (_e : ε) (p : Pipe) : PRes β ε :=
  if subscription_closed p.up then ⟨p, [], none⟩
  else
    match p.up.observer with
    | some _ => ⟨p, [], some Halt.deadlocked⟩
    | none =>
      let r : Res β ε := cleanup_subscription p.up
      ⟨{ p with up := r.sub }, r.evs, r.halt⟩

/-- Upstream `SubscriptionObserver::complete` (lines 259-274): same
control flow as `pipeUpError`; the forwarding closure at lines 105-107 is
never reached. -/
def pipeUpComplete (p : Pipe) : PRes β ε :=
  if subscription_closed p.up then ⟨p, [], none⟩
  else
    match p.up.observer with
    | some _ => ⟨p, [], some Halt.deadlocked⟩
    | none =>
      let r : Res β ε := cleanup_subscription p.up
      ⟨{ p with up := r.sub }, r.evs, r.halt⟩

/-- Run the source's straight-line producer program through the upstream
`SubscriptionObserver` of the pipeline. -/
def runPipeProducer (f : α → β) (acts : List (PAct α ε)) (p : Pipe) :
    PRes β ε :=
  match acts with
  | [] => ⟨p, [], none⟩
  | a :: rest =>
    let r : PRes β ε :=
      match a with
      | PAct.next v => pipeUpNext f v p
      | PAct.error e => pipeUpError e p
      | PAct.complete => pipeUpComplete p
    match r.halt with
    | some h => ⟨r.pipe, r.evs, some h⟩
    | none =>
      let r2 := runPipeProducer f rest r.pipe
      ⟨r2.pipe, r.evs ++ r2.evs, r2.halt⟩

/-- `cleanup_subscription` (lines 454-472) on the downstream subscription,
whose stored cleanup action is the closure returned by map's subscriber
function (lines 109-111): running it calls `subscription.unsubscribe()` on
the upstream subscription (no guard on the upstream lock is held there). -/
def pipeDownCleanup (p : Pipe) : PRes β ε :=
  if p.down.observer.isSome then ⟨p, [], some Halt.panicked⟩
  else
    match p.down.cleanup with
    | none => ⟨p, [], none⟩
    | some _ =>
      let d : Subscription := { p.down with cleanup := none }
      let r : Res β ε := close_subscription 0 p.up
      ⟨{ down := d, up := r.sub }, Event.cleanupRun :: r.evs, r.halt⟩

/-- `Observable::subscribe` on `source.map(f)` with a passive consumer
observer, where the source observable's subscriber runs the straight-line
program `srcActs`. Downstream `Subscription::new` (lines 162-187): install
the passive observer, invoke its `start` (records the event, does not
close), then run map's subscriber function (lines 94-112): upstream
`Subscription::new` installs the derived observer, whose absent `start`
does nothing, then runs the source producer; the source's cleanup is then
stored upstream (line 180; `fromProducer`-style sources return a no-op
cleanup), and map's subscriber returns the unsubscribe closure, stored as
the downstream cleanup, which is consumed at once if the downstream
subscription is already closed (lines 182-184). -/
def mapSubscribe (f : α → β) (srcActs : List (PAct α ε)) : PRes β ε :=
  let d0 : Subscription := { observer := some ObsB.passive, cleanup := none }
  let u0 : Subscription := { observer := some ObsB.derived, cleanup := none }
  let r := runPipeProducer f srcActs { down := d0, up := u0 }
  match r.halt with
  | some h => ⟨r.pipe, Event.start :: r.evs, some h⟩
  | none =>
    let u1 : Subscription := { r.pipe.up with cleanup := some () }
    let rU : PRes β ε :=
      if subscription_closed u1 then
        let rc : Res β ε := cleanup_subscription u1
        ⟨{ down := r.pipe.down, up := rc.sub }, rc.evs, rc.halt⟩
      else ⟨{ down := r.pipe.down, up := u1 }, [], none⟩
    match rU.halt with
    | some h => ⟨rU.pipe, Event.start :: (r.evs ++ rU.evs), some h⟩
    | none =>
      let d1 : Subscription := { rU.pipe.down with cleanup := some () }
      let p1 : Pipe := { down := d1, up := rU.pipe.up }
      if subscription_closed d1 then
        let rc := pipeDownCleanup (β := β) (ε := ε) p1
        ⟨rc.pipe, Event.start :: (r.evs ++ rU.evs ++ rc.evs), rc.halt⟩
      else
        ⟨p1, Event.start :: (r.evs ++ rU.evs), none⟩

/-! ### Sequences of public operations on one subscription -/

/-- The public operations available on a live subscription and its
`SubscriptionObserver`: producer-side `next`/`error`/`complete`,
consumer-side `unsubscribe`, and the pure query `closed`. -/
inductive Op (α ε : Type) where
  | next (v : α)
  | error (e : ε)
  | complete
  | unsubscribe
  | closed
deriving DecidableEq

/-- One public operation as a state transformer. -/
def step (o : Op α ε) (s : Subscription) : Res α ε :=
  match o with
  | Op.next v => SubscriptionObserver.next v s
  | Op.error e => SubscriptionObserver.error e s
  | Op.complete => SubscriptionObserver.complete s
  | Op.unsubscribe => Subscription.unsubscribe s
  | Op.closed => ⟨s, [], none⟩

/-- Run a sequence of public operations, stopping at the first abnormal
outcome (a panicking or deadlocked call never returns to the caller). -/
def run (ops : List (Op α ε)) (s : Subscription) : Res α ε :=
  match ops with
  | [] => ⟨s, [], none⟩
  | o :: rest =>
    let r := step o s
    match r.halt with
    | some h => ⟨r.sub, r.evs, some h⟩
    | none =>
      let r2 := run rest r.sub
      ⟨r2.sub, r.evs ++ r2.evs, r2.halt⟩

/-! ### Two threads racing `error()` against `unsubscribe()`

For the concurrency claim, the two racing calls are modelled at the
granularity of the source's individual lock-protected accesses; each
micro-step holds a lock only within itself, except for the long-lived read
guard that `SubscriptionObserver::error` takes at line 246, which stays
held until the function returns (it never does). `readers` counts
outstanding read guards on the `observer` slot lock across both threads; a
write acquisition can only complete while `readers = 0`. A thread whose
next micro-step needs an unavailable lock stays where it is when
scheduled. -/

/-- Shared state plus per-thread program counters for one thread running
`SubscriptionObserver::error` (pcError) and one running
`Subscription::unsubscribe` (pcUnsub) on the same open subscription.
`observerSlot`/`cleanupSlot` are the occupancy of the two slots,
`cleanupRuns` counts executions of the cleanup action.

pcError: 0 = closed-check at line 242; 1 = take the line-246 read guard;
2 = blocked forever at the line-249 write; 9 = returned.
pcUnsub: 0 = closed-check at line 488; 1 = the line-491 write;
2 = read the cleanup slot (line 460); 3 = clear it (line 468);
4 = run the taken action (line 471); 9 = returned. -/
structure RaceState where
  observerSlot : Bool
  cleanupSlot : Bool
  readers : Nat
  pcError : Nat
  pcUnsub : Nat
  cleanupRuns : Nat
deriving DecidableEq

/-- One scheduled micro-step of the `error()` thread. -/
def errorStep (s : RaceState) : RaceState :=
  match s.pcError with
  | 0 => if s.observerSlot then { s with pcError := 1 } else { s with pcError := 9 }
  | 1 => { s with readers := s.readers + 1, pcError := 2 }
  | 2 =>
    -- the write needs `readers = 0`, impossible while this thread's own
    -- guard from step 1 is outstanding: the thread stays blocked here.
    if s.readers == 0 then { s with observerSlot := false, pcError := 3 } else s
  | _ => s

/-- One scheduled micro-step of the `unsubscribe()` thread. -/
def unsubStep (s : RaceState) : RaceState :=
  match s.pcUnsub with
  | 0 => if s.observerSlot then { s with pcUnsub := 1 } else { s with pcUnsub := 9 }
  | 1 => if s.readers == 0 then { s with observerSlot := false, pcUnsub := 2 } else s
  | 2 => if s.cleanupSlot then { s with pcUnsub := 3 } else { s with pcUnsub := 9 }
  | 3 => { s with cleanupSlot := false, pcUnsub := 4 }
  | 4 => { s with cleanupRuns := s.cleanupRuns + 1, pcUnsub := 9 }
  | _ => s

/-- Execute a schedule: `true` schedules the `error()` thread, `false` the
`unsubscribe()` thread. -/
def raceExec (sched : List Bool) (s : RaceState) : RaceState :=
  match sched with
  | [] => s
  | t :: rest => raceExec rest (if t then errorStep s else unsubStep s)

/-- An open subscription with a registered cleanup action, before either
racing call starts. -/
def raceInit : RaceState :=
  ⟨true, true, 0, 0, 0, 0⟩

/-! ### Helper lemmas -/

/-- Number of executions of the cleanup action recorded in an event
list. -/
def countCleanup : List (Event α ε) → Nat
  | [] => 0
  | Event.cleanupRun :: rest => countCleanup rest + 1
  | Event.start :: rest => countCleanup rest
  | Event.next _ :: rest => countCleanup rest
  | Event.error _ :: rest => countCleanup rest
  | Event.complete :: rest => countCleanup rest

/-- A call outcome that is not a panic (it either returned or blocked on a
lock). In the subscription model the only source of `Halt.panicked` is the
assertion at the head of `cleanup_subscription`, so benignity of every
reachable call is exactly the statement that this assertion never fires. -/
def Res.benign (r : Res α ε) : Prop :=
  r.halt = none ∨ r.halt = some Halt.deadlocked

theorem cleanup_subscription_sub_observer (s : Subscription) :
    ((cleanup_subscription s : Res α ε)).sub.observer = s.observer := by
  rcases hobs : s.observer with _ | b <;> rcases hcl : s.cleanup with _ | c <;>
    simp [cleanup_subscription, hobs, hcl]

theorem cleanup_subscription_halt_of_isNone (s : Subscription)
    (h : s.observer = none) : ((cleanup_subscription s : Res α ε)).halt = none := by
  rcases hcl : s.cleanup with _ | c <;> simp [cleanup_subscription, h, hcl]

theorem step_closed_noop (o : Op α ε) (s : Subscription)
    (h : s.observer = none) : step o s = ⟨s, [], none⟩ := by
  cases o <;>
    simp [step, SubscriptionObserver.next, SubscriptionObserver.error,
      SubscriptionObserver.complete, Subscription.unsubscribe,
      close_subscription, subscription_closed, h]

theorem run_closed_noop (ops : List (Op α ε)) (s : Subscription)
    (h : s.observer = none) : run ops s = ⟨s, [], none⟩ := by
  induction ops with
  | nil => rfl
  | cons o rest ih => simp [run, step_closed_noop o s h, ih]

theorem subObsNext_eq (v : α) (s : Subscription) :
    (SubscriptionObserver.next v s : Res α ε) =
      ⟨s, if s.observer.isSome then [Event.next v] else [], none⟩ := by
  rcases hobs : s.observer with _ | b <;>
    simp [SubscriptionObserver.next, subscription_closed, hobs]

theorem subObsError_eq (e : ε) (s : Subscription) :
    (SubscriptionObserver.error e s : Res α ε) =
      ⟨s, [], if s.observer.isSome then some Halt.deadlocked else none⟩ := by
  rcases hobs : s.observer with _ | b <;>
    simp [SubscriptionObserver.error, subscription_closed, hobs]

theorem subObsComplete_eq (s : Subscription) :
    (SubscriptionObserver.complete s : Res α ε) =
      ⟨s, [], if s.observer.isSome then some Halt.deadlocked else none⟩ := by
  rcases hobs : s.observer with _ | b <;>
    simp [SubscriptionObserver.complete, subscription_closed, hobs]

theorem unsubscribe_eq (s : Subscription) :
    (Subscription.unsubscribe s : Res α ε) =
      if s.observer.isSome then
        ⟨⟨none, none⟩, if s.cleanup.isSome then [Event.cleanupRun] else [], none⟩
      else ⟨s, [], none⟩ := by
  rcases s with ⟨_ | b, _ | c⟩ <;>
    simp [Subscription.unsubscribe, close_subscription, subscription_closed,
      cleanup_subscription]

theorem run_benign (ops : List (Op α ε)) (s : Subscription) :
    (run ops s).benign := by
  induction ops generalizing s with
  | nil => exact Or.inl rfl
  | cons o rest ih =>
    cases o with
    | next v =>
      simp only [run, step, subObsNext_eq]
      simpa [Res.benign] using ih s
    | error e =>
      rcases hobs : s.observer with _ | b
      · simp only [run, step, subObsError_eq, hobs, Option.isSome_none,
          Bool.false_eq_true, if_false]
        simpa [Res.benign] using ih s
      · simp [run, step, subObsError_eq, hobs, Res.benign]
    | complete =>
      rcases hobs : s.observer with _ | b
      · simp only [run, step, subObsComplete_eq, hobs, Option.isSome_none,
          Bool.false_eq_true, if_false]
        simpa [Res.benign] using ih s
      · simp [run, step, subObsComplete_eq, hobs, Res.benign]
    | unsubscribe =>
      rcases hobs : s.observer with _ | b
      · simp only [run, step, unsubscribe_eq, hobs, Option.isSome_none,
          Bool.false_eq_true, if_false]
        simpa [Res.benign] using ih s
      · simp only [run, step, unsubscribe_eq, hobs, Option.isSome_some, if_true]
        simpa [Res.benign] using ih ⟨none, none⟩
    | closed =>
      simp only [run, step]
      simpa [Res.benign] using ih s

theorem runProducer_benign (acts : List (PAct α ε)) (s : Subscription) :
    (runProducer acts s).benign := by
  induction acts generalizing s with
  | nil => exact Or.inl rfl
  | cons a rest ih =>
    cases a with
    | next v =>
      simp only [runProducer, subObsNext_eq]
      simpa [Res.benign] using ih s
    | error e =>
      rcases hobs : s.observer with _ | b
      · simp only [runProducer, subObsError_eq, hobs, Option.isSome_none,
          Bool.false_eq_true, if_false]
        simpa [Res.benign] using ih s
      · simp [runProducer, subObsError_eq, hobs, Res.benign]
    | complete =>
      rcases hobs : s.observer with _ | b
      · simp only [runProducer, subObsComplete_eq, hobs, Option.isSome_none,
          Bool.false_eq_true, if_false]
        simpa [Res.benign] using ih s
      · simp [runProducer, subObsComplete_eq, hobs, Res.benign]

theorem fromProducer_benign (values : List α) (s : Subscription) :
    (fromProducer values s : Res α ε).benign := by
  induction values generalizing s with
  | nil =>
    rcases hobs : s.observer with _ | b <;>
      simp [fromProducer, subObsComplete_eq, hobs, Res.benign]
  | cons v rest ih =>
    rcases hobs : s.observer with _ | b
    · simp [fromProducer, subObsNext_eq, subscription_closed, hobs, Res.benign]
    · simp only [fromProducer, subObsNext_eq, hobs, Option.isSome_some, if_true,
        subscription_closed, Option.isNone_some, Bool.false_eq_true, if_false]
      simpa [Res.benign] using ih s

/-- `Subscription::new ObsB.startUnsub producer` reduces outright: the
`unsubscribe` inside `start` blocks forever on the observer slot write
while the constructor's own read guard is held, whatever the producer. -/
theorem new_startUnsub (producer : Subscription → Res α ε) :
    Subscription.new ObsB.startUnsub producer =
      ⟨⟨some ObsB.startUnsub, none⟩, [Event.start], some Halt.deadlocked⟩ := rfl

theorem new_benign (obs : ObsB) (producer : Subscription → Res α ε)
    (hp : ∀ s, (producer s).benign) : (Subscription.new obs producer).benign := by
  cases obs with
  | startUnsub => exact Or.inr (by rw [new_startUnsub])
  | passive =>
    rcases hps : producer ⟨some ObsB.passive, none⟩ with ⟨psub, pevs, phalt⟩
    have hb := hp ⟨some ObsB.passive, none⟩
    rw [hps] at hb
    rcases phalt with _ | h
    · rcases hobs : psub.observer with _ | b
      · have hcl : ({ psub with cleanup := some () } : Subscription).observer = none := by
          simpa using hobs
        simp [Subscription.new, subscription_closed, hps, hobs, Res.benign,
          cleanup_subscription, cleanup_subscription_halt_of_isNone _ hcl]
      · simp [Subscription.new, subscription_closed, hps, hobs, Res.benign]
    · rcases hb with hb | hb
      · cases hb
      · simp only [Option.some.injEq] at hb
        subst hb
        simp [Subscription.new, subscription_closed, hps, Res.benign]
  | derived =>
    rcases hps : producer ⟨some ObsB.derived, none⟩ with ⟨psub, pevs, phalt⟩
    have hb := hp ⟨some ObsB.derived, none⟩
    rw [hps] at hb
    rcases phalt with _ | h
    · rcases hobs : psub.observer with _ | b
      · have hcl : ({ psub with cleanup := some () } : Subscription).observer = none := by
          simpa using hobs
        simp [Subscription.new, subscription_closed, hps, hobs, Res.benign,
          cleanup_subscription, cleanup_subscription_halt_of_isNone _ hcl]
      · simp [Subscription.new, subscription_closed, hps, hobs, Res.benign]
    · rcases hb with hb | hb
      · cases hb
      · simp only [Option.some.injEq] at hb
        subst hb
        simp [Subscription.new, subscription_closed, hps, Res.benign]

/-! ### Claim theorems -/

/-- C1: once a Subscription is Closed (its observer slot is `None`), every
subsequent producer call on its SubscriptionObserver — `next(value)`,
`error(err)` or `complete()` — is a complete no-op: it returns normally
(no panic, no blocking), delivers nothing to the Observer, runs no cleanup,
and leaves both the observer and cleanup slots unchanged. -/
theorem post_close_silence {α ε : Type} (s : Subscription) (v : α) (e : ε)
    (h : subscription_closed s = true) :
    SubscriptionObserver.next v s = (⟨s, [], none⟩ : Res α ε) ∧
    SubscriptionObserver.error e s = (⟨s, [], none⟩ : Res α ε) ∧
    SubscriptionObserver.complete s = (⟨s, [], none⟩ : Res α ε) := by
  have hobs : s.observer = none := by
    simpa [subscription_closed, Option.isNone_iff_eq_none] using h
  refine ⟨?_, ?_, ?_⟩ <;>
    simp [SubscriptionObserver.next, SubscriptionObserver.error,
      SubscriptionObserver.complete, subscription_closed, hobs]

/-- Witness for C1 at the concrete closed subscription with a still-present
cleanup slot. -/
theorem post_close_silence_witness :
    SubscriptionObserver.next (3 : Nat) (⟨none, some ()⟩ : Subscription) =
      (⟨⟨none, some ()⟩, [], none⟩ : Res Nat Nat) ∧
    SubscriptionObserver.error (7 : Nat) (⟨none, some ()⟩ : Subscription) =
      (⟨⟨none, some ()⟩, [], none⟩ : Res Nat Nat) ∧
    SubscriptionObserver.complete (⟨none, some ()⟩ : Subscription) =
      (⟨⟨none, some ()⟩, [], none⟩ : Res Nat Nat) :=
  post_close_silence (⟨none, some ()⟩ : Subscription) 3 7 (by decide)

/-- C2: the claim says an Observer whose `start` immediately calls
`unsubscribe()` makes `subscribe` skip the subscriber function and return
with `closed()` true. On the code this fails: `Subscription::new` holds a
read guard on the observer slot for the whole `start` invocation, so the
`unsubscribe` inside `start` blocks forever acquiring the observer-slot
write lock, `subscribe` never returns, and the subscription never reports
closed. The theorem evaluates the constructor at that input: whatever the
subscriber function, the run delivers exactly one `start`, deadlocks, never
invokes the subscriber (the result does not depend on `producer`), and
leaves the observer installed. -/
theorem start_time_rejection_deadlocks {α ε : Type}
    (producer : Subscription → Res α ε) :
    Subscription.new ObsB.startUnsub producer =
      ⟨⟨some ObsB.startUnsub, none⟩, [Event.start], some Halt.deadlocked⟩ :=
  rfl

/-- C3: the claim says `error(err)` (resp. `complete()`) on an open
Subscription detaches the observer before invoking the observer's terminal
callback and then runs cleanup. On the code both calls instead deadlock on
the open branch: the line-246/267 read guard is still held when the
line-249/270 write on the same lock is requested, so the observer is never
detached, no terminal notification is ever delivered, and cleanup never
runs. The theorem evaluates both calls on a concrete open subscription with
a registered cleanup action. -/
theorem open_terminal_calls_deadlock :
    SubscriptionObserver.error (5 : Nat)
        (⟨some ObsB.passive, some ()⟩ : Subscription) =
      (⟨⟨some ObsB.passive, some ()⟩, [], some Halt.deadlocked⟩ : Res Nat Nat) ∧
    SubscriptionObserver.complete (⟨some ObsB.passive, some ()⟩ : Subscription) =
      (⟨⟨some ObsB.passive, some ()⟩, [], some Halt.deadlocked⟩ : Res Nat Nat) := by
  decide

/-- C4: the claim says `Observable::filter(p)` returns a new Observable
forwarding exactly the values satisfying `p`, so that
`filter(even)` then `map(times ten)` on `[1,2,3,4,5]` yields `[20, 40]`
then `complete`. On the code `filter` is `todo!()`: the call panics
unconditionally before any Observable is constructed. -/
theorem filter_todo_panics_on_even :
    Observable.filter (Observable.fromList (ε := Unit) [1, 2, 3, 4, 5])
        (fun x => x % 2 == 0) =
      Except.error Halt.panicked :=
  rfl

/-- C5: the claim says `map(f)` subscribes to the source, delivers `f(v)`
for every source value in order, forwards `error`/`complete` unchanged,
and cleans up by unsubscribing from the source. On the code the value
deliveries do flow, but terminal forwarding is impossible: when the source
producer emits `complete`, the upstream `SubscriptionObserver::complete`
deadlocks on its own observer-slot read guard before the derived observer's
forwarding closure can run. The theorem evaluates a subscription to
`source.map(x => x * 10)` where the source emits `1` then `complete`: the
mapped value `10` is delivered, then the run deadlocks with both
subscriptions still open, no `complete` delivered and no cleanup run. -/
theorem map_terminal_forwarding_deadlocks :
    mapSubscribe (ε := Unit) (fun n : Nat => n * 10)
        [PAct.next 1, PAct.complete] =
      ⟨⟨⟨some ObsB.passive, none⟩, ⟨some ObsB.derived, none⟩⟩,
        [Event.start, Event.next 10], some Halt.deadlocked⟩ := by
  decide

/-- C6: the claim says an Observable built from a finite sequence delivers,
on each subscribe, every element in order followed by `complete`, and is
restartable. On the code the producer loop does emit every element in
order (checking `closed()` after each), but the final
`observer.complete()` call deadlocks (see C3), so `subscribe` never
returns, `complete` is never delivered, and a second subscription can never
be made by the blocked caller. The theorem evaluates the first subscribe on
the sequence `[1, 2, 3]`. -/
theorem from_sequence_subscribe_deadlocks :
    Observable.subscribe (Observable.fromList (ε := Unit) [1, 2, 3])
        ObsB.passive =
      ⟨⟨some ObsB.passive, none⟩,
        [Event.start, Event.next 1, Event.next 2, Event.next 3],
        some Halt.deadlocked⟩ := by
  decide

/-- C7: calling `unsubscribe()` N ≥ 1 times sequentially on a Subscription
in any state never panics or blocks, leaves the subscription closed, and
executes the cleanup action exactly once when the subscription was open
with a registered cleanup action, and zero times otherwise (in particular
zero times when no subscriber function ever ran, i.e. the cleanup slot is
empty); every call after the first finds the subscription closed and is a
complete no-op. -/
theorem unsubscribe_idempotent {α ε : Type} (n : Nat) (s : Subscription)
    (h : 1 ≤ n) :
    (run (α := α) (ε := ε) (List.replicate n Op.unsubscribe) s).halt = none ∧
    subscription_closed
      (run (α := α) (ε := ε) (List.replicate n Op.unsubscribe) s).sub = true ∧
    countCleanup
        (run (α := α) (ε := ε) (List.replicate n Op.unsubscribe) s).evs =
      (if s.observer.isSome && s.cleanup.isSome then 1 else 0) ∧
    (subscription_closed s = true →
      step (Op.unsubscribe : Op α ε) s = ⟨s, [], none⟩) := by
  obtain ⟨m, rfl⟩ : ∃ m, n = m + 1 := ⟨n - 1, (Nat.succ_pred_eq_of_pos h).symm⟩
  have hclosed : ∀ t : Subscription, t.observer = none →
      step (Op.unsubscribe : Op α ε) t = ⟨t, [], none⟩ := fun t ht =>
    step_closed_noop Op.unsubscribe t ht
  rcases s with ⟨_ | b, _ | c⟩
  · simp [List.replicate_succ, run, hclosed ⟨none, none⟩ rfl,
      run_closed_noop (List.replicate m Op.unsubscribe) ⟨none, none⟩ rfl,
      countCleanup, subscription_closed]
  · simp [List.replicate_succ, run, hclosed ⟨none, some ()⟩ rfl,
      run_closed_noop (List.replicate m Op.unsubscribe) ⟨none, some ()⟩ rfl,
      countCleanup, subscription_closed]
  · have hstep : step (Op.unsubscribe : Op α ε) ⟨some b, none⟩ =
        ⟨⟨none, none⟩, [], none⟩ := by
      simp [step, unsubscribe_eq]
    simp [List.replicate_succ, run, hstep,
      run_closed_noop (List.replicate m Op.unsubscribe) ⟨none, none⟩ rfl,
      countCleanup, subscription_closed]
  · have hstep : step (Op.unsubscribe : Op α ε) ⟨some b, some ()⟩ =
        ⟨⟨none, none⟩, [Event.cleanupRun], none⟩ := by
      simp [step, unsubscribe_eq]
    simp [List.replicate_succ, run, hstep,
      run_closed_noop (List.replicate m Op.unsubscribe) ⟨none, none⟩ rfl,
      countCleanup, subscription_closed]

/-- Witness for C7: three sequential unsubscribes on an open subscription
with a registered cleanup action run the cleanup exactly once. -/
theorem unsubscribe_idempotent_witness :
    (run (α := Nat) (ε := Nat) (List.replicate 3 Op.unsubscribe)
        ⟨some ObsB.passive, some ()⟩).halt = none ∧
    subscription_closed
      (run (α := Nat) (ε := Nat) (List.replicate 3 Op.unsubscribe)
        ⟨some ObsB.passive, some ()⟩).sub = true ∧
    countCleanup
        (run (α := Nat) (ε := Nat) (List.replicate 3 Op.unsubscribe)
          ⟨some ObsB.passive, some ()⟩).evs =
      (if (some ObsB.passive : Option ObsB).isSome &&
          (some () : Option Unit).isSome then 1 else 0) ∧
    (subscription_closed ⟨some ObsB.passive, some ()⟩ = true →
      step (Op.unsubscribe : Op Nat Nat) ⟨some ObsB.passive, some ()⟩ =
        ⟨⟨some ObsB.passive, some ()⟩, [], none⟩) :=
  unsubscribe_idempotent 3 ⟨some ObsB.passive, some ()⟩ (by decide)

/-- C8: `closed()` returns exactly the emptiness of the observer slot, and
Closed is terminal: no public operation ever re-installs an observer — each
operation either leaves the observer slot unchanged or clears it, and once
the slot is `None` every sequence of public operations is a complete no-op,
so the subscription reports closed forever after. -/
theorem closed_terminal {α ε : Type} :
    (∀ s : Subscription, Subscription.closed s = s.observer.isNone) ∧
    (∀ (o : Op α ε) (s : Subscription),
      (step o s).sub.observer = s.observer ∨ (step o s).sub.observer = none) ∧
    (∀ (ops : List (Op α ε)) (s : Subscription),
      subscription_closed s = true → run ops s = ⟨s, [], none⟩) := by
  refine ⟨fun s => rfl, fun o s => ?_, fun ops s h => ?_⟩
  · cases o with
    | next v => simp [step, subObsNext_eq]
    | error e => simp [step, subObsError_eq]
    | complete => simp [step, subObsComplete_eq]
    | unsubscribe =>
      rcases hobs : s.observer with _ | b
      · simp [step, unsubscribe_eq, hobs]
      · simp [step, unsubscribe_eq, hobs]
    | closed => simp [step]
  · exact run_closed_noop ops s
      (by simpa [subscription_closed, Option.isNone_iff_eq_none] using h)

/-- Witness for C8: on a concrete closed subscription, a sequence using
every kind of public operation is a complete no-op. -/
theorem closed_terminal_witness :
    run [Op.next (5 : Nat), Op.error (1 : Nat), Op.complete, Op.unsubscribe,
        Op.closed] (⟨none, none⟩ : Subscription) =
      ⟨⟨none, none⟩, [], none⟩ :=
  closed_terminal.2.2
    [Op.next 5, Op.error 1, Op.complete, Op.unsubscribe, Op.closed]
    ⟨none, none⟩ (by decide)

/-- C9: the claim says that when `error()`, `complete()` and
`unsubscribe()` race, the cleanup action runs exactly once because the
cleanup slot is atomically taken-and-cleared. On the code this fails: in
the interleaving where the `error()` thread passes its closed-check and
takes its long-lived observer-slot read guard before either thread reaches
the slot write, both the `error()` thread (line 249) and the
`unsubscribe()` thread (line 491) block forever on the write acquisition,
the final state is stuck under every continuation of the schedule, and the
cleanup action runs zero times — not exactly once. (Independently, the
cleanup take at lines 460-468 is a read-clone followed by a separate
write, not an atomic take-and-clear.) -/
theorem race_starves_cleanup :
    (raceExec [true, true, false, false] raceInit).cleanupRuns = 0 ∧
    (raceExec [true, true, false, false] raceInit).cleanupSlot = true ∧
    ∀ more : List Bool,
      raceExec more (raceExec [true, true, false, false] raceInit) =
        raceExec [true, true, false, false] raceInit := by
  have hF : raceExec [true, true, false, false] raceInit =
      ⟨true, true, 1, 2, 1, 0⟩ := by decide
  refine ⟨by decide, by decide, fun more => ?_⟩
  rw [hF]
  induction more with
  | nil => rfl
  | cons t rest ih =>
    have hstuck : (if t then errorStep ⟨true, true, 1, 2, 1, 0⟩
        else unsubStep ⟨true, true, 1, 2, 1, 0⟩) = ⟨true, true, 1, 2, 1, 0⟩ := by
      cases t <;> decide
    rw [raceExec, hstuck, ih]

/-- C10: the assertion `assert!(subscription.observer.read().unwrap()
.is_none())` at the head of `cleanup_subscription` never fails: under every
sequence of public operations from any state, and under every run of the
subscription constructor with any straight-line producer program or any
from-sequence producer and any of the modelled observers, no call ever
panics (the only `panicked` source in the subscription model is that
assertion; every reachable `cleanup_subscription` entry has an empty
observer slot). -/
theorem cleanup_assert_never_fires {α ε : Type} :
    (∀ (ops : List (Op α ε)) (s : Subscription),
      (run ops s).halt = none ∨ (run ops s).halt = some Halt.deadlocked) ∧
    (∀ (obs : ObsB) (acts : List (PAct α ε)),
      (Subscription.new obs (runProducer acts)).halt = none ∨
        (Subscription.new obs (runProducer acts)).halt =
          some Halt.deadlocked) ∧
    (∀ (obs : ObsB) (values : List α),
      (Subscription.new obs (fromProducer (ε := ε) values)).halt = none ∨
        (Subscription.new obs (fromProducer (ε := ε) values)).halt =
          some Halt.deadlocked) :=
  ⟨fun ops s => run_benign ops s,
   fun obs acts => new_benign obs (runProducer acts)
     (fun s => runProducer_benign acts s),
   fun obs values => new_benign obs (fromProducer values)
     (fun s => fromProducer_benign values s)⟩

end Observables
